import Mathlib

/-!
Shallow embedding of the Kamnet backend authentication core:
the token utility (src/src/utils/token.js), the user credential model
(the mongoose UserSchema) and the auth controller operations
(register / login / googleAuth / getMe / refreshToken / forgotPassword /
resetPassword).

Modelling conventions:
* JWT strings are modelled by the inductive `TokenStr`: `signed p s` is the
  string produced by signing payload `p` with secret `s` (jwt.sign is
  injective on payload and secret for this purpose); `garbage s` is any
  string that is not a well-formed JWT.
* bcrypt hashes and sha256 digests are modelled as injective wrappers of
  their preimage (`BcryptHash`, `Sha256`): the code only ever compares them
  for equality, and the model treats the hash functions as collision free.
* All times are a single abstract clock in seconds (JWT `exp` is in seconds
  in the source; Date.now() millisecond values are divided out uniformly,
  which affects no compared quantity).
* The in-memory revocation Set together with its setTimeout-scheduled
  deletions is modelled as a list of entries `(token, removalTime?)`:
  membership at time `now` requires `now` to be before the scheduled
  removal when one was scheduled.
* JSON response bodies are modelled structurally (`Body`); two responses
  are byte-identical iff the modelled values are equal, since the
  serializer is deterministic.
* Mongoose document serialization is modelled by `serializeUser`, a list of
  key/value pairs in schema order; a field that is `undefined` on the
  document is absent from the list, and `password` (schema `select: false`)
  is present only when the query selected it.
-/

namespace Kamnet

/-! ### JWT layer (model of the jsonwebtoken library as used in token.js) -/

structure JwtPayload where
  id : Nat
  role : Option String
  exp : Nat
deriving DecidableEq

inductive TokenStr
  | signed (payload : JwtPayload) (secret : String)
  | garbage (s : String)
deriving DecidableEq

/-- Which strings are falsy in JS (`!token`): the empty string; `none`
stands for null/undefined. -/
def tokFalsy : Option TokenStr → Bool
  | none => true
  | some (.garbage s) => s.isEmpty
  | some (.signed _ _) => false

inductive JwtError
  | jsonWebTokenError
  | tokenExpiredError
deriving DecidableEq

/-- jwt.verify: signature check first (wrong secret or not a JWT gives
JsonWebTokenError), then the exp claim (TokenExpiredError). -/
def jwtVerify (t : TokenStr) (secret : String) (now : Nat) :
    Except JwtError JwtPayload :=
  match t with
  | .garbage _ => .error .jsonWebTokenError
  | .signed p s =>
      if s = secret then
        if p.exp ≤ now then .error .tokenExpiredError else .ok p
      else .error .jsonWebTokenError

/-- jwt.decode: reads the payload without verifying; null on a non-JWT. -/
def jwtDecode : TokenStr → Option JwtPayload
  | .signed p _ => some p
  | .garbage _ => none

/-! ### Environment configuration -/

structure Env where
  jwtSecret : String
  jwtRefreshSecret : Option String
  production : Bool
  jwtExpireSec : Nat
  jwtRefreshExpireSec : Nat
deriving DecidableEq

/-- process.env.JWT_REFRESH_SECRET || process.env.JWT_SECRET -/
def refreshSecret (env : Env) : String :=
  env.jwtRefreshSecret.getD env.jwtSecret

/-- generateToken: sign {id, role} with JWT_SECRET, expiry now + TTL. -/
def generateToken (env : Env) (now : Nat) (id : Nat) (role : String) :
    TokenStr × Nat :=
  let exp := now + env.jwtExpireSec
  (.signed ⟨id, some role, exp⟩ env.jwtSecret, exp)

/-- generateRefreshToken: sign {id} with the refresh secret (falling back
to JWT_SECRET), longer expiry. -/
def generateRefreshToken (env : Env) (now : Nat) (id : Nat) :
    TokenStr × Nat :=
  let exp := now + env.jwtRefreshExpireSec
  (.signed ⟨id, none, exp⟩ (refreshSecret env), exp)

/-! ### Revocation registry (token.js tokenBlacklist) -/

/-- One blacklist entry: the token and, when one was scheduled, the time at
which the setTimeout callback deletes it again. -/
abbrev Blacklist := List (TokenStr × Option Nat)

/-- Membership of the Set at time `now`, accounting for scheduled
deletions having fired. -/
def isBlacklisted (bl : Blacklist) (now : Nat) (t : TokenStr) : Bool :=
  bl.any fun e =>
    decide (e.1 = t) &&
      match e.2 with
      | none => true
      | some r => decide (now < r)

inductive TokErr
  | revoked
  | invalid
  | expired
deriving DecidableEq

/-- The message of each verifyToken failure. -/
def accessErrMsg : TokErr → String
  | .revoked => "Token has been revoked"
  | .invalid => "Invalid token"
  | .expired => "Token expired"

/-- The message of each verifyRefreshToken failure. -/
def refreshErrMsg : TokErr → String
  | .revoked => "Refresh token has been revoked"
  | .invalid => "Invalid refresh token"
  | .expired => "Refresh token expired"

/-- verifyToken: blacklist membership is checked before jwt.verify; the
revoked error is re-thrown unchanged by the catch clause, a
JsonWebTokenError becomes "Invalid token" and a TokenExpiredError becomes
"Token expired". -/
def verifyToken (bl : Blacklist) (env : Env) (now : Nat) (t : TokenStr) :
    Except TokErr JwtPayload :=
  if isBlacklisted bl now t then .error .revoked
  else
    match jwtVerify t env.jwtSecret now with
    | .ok p => .ok p
    | .error .jsonWebTokenError => .error .invalid
    | .error .tokenExpiredError => .error .expired

/-- verifyRefreshToken: same shape, refresh secret. -/
def verifyRefreshToken (bl : Blacklist) (env : Env) (now : Nat)
    (t : TokenStr) : Except TokErr JwtPayload :=
  if isBlacklisted bl now t then .error .revoked
  else
    match jwtVerify t (refreshSecret env) now with
    | .ok p => .ok p
    | .error .jsonWebTokenError => .error .invalid
    | .error .tokenExpiredError => .error .expired

/-- blacklistToken: returns on a falsy token; otherwise adds the token to
the Set and, when jwt.decode yields a payload whose expiry is still in the
future, schedules its removal at that expiry (otherwise no removal is ever
scheduled). The body never throws: every operation it performs is total. -/
def blacklistToken (bl : Blacklist) (t : Option TokenStr) (now : Nat) :
    Blacklist :=
  if tokFalsy t then bl
  else
    match t with
    | none => bl
    | some tok =>
        let sched : Option Nat :=
          match jwtDecode tok with
          | some p => if now < p.exp then some p.exp else none
          | none => none
        (tok, sched) :: bl

/-! ### Credential model (user.model.js) -/

/-- A bcrypt hash, identified by its preimage (bcrypt.compare succeeds
exactly on the hashed plaintext in this collision-free model). -/
structure BcryptHash where
  pre : String
deriving DecidableEq

/-- A sha256 hex digest, identified by its preimage. -/
structure Sha256 where
  pre : String
deriving DecidableEq

/-- crypto.createHash(sha256).update(s).digest(hex) -/
def sha256Hex (s : String) : Sha256 := ⟨s⟩

/-- The UserSchema pre-save hook: bcrypt-hash the (modified, present)
plaintext password. Both register (User.create) and resetPassword store
passwords through this single path. -/
def hashPasswordPreSave (plain : String) : BcryptHash := ⟨plain⟩

structure User where
  id : Nat
  name : String
  email : String
  password : Option BcryptHash
  role : String
  googleId : Option String
  picture : Option String
  refreshToken : Option TokenStr
  refreshTokenExpiry : Option Nat
  passwordResetToken : Option Sha256
  passwordResetExpire : Option Nat
deriving DecidableEq

/-- UserSchema.methods.matchPassword: false when no hash is stored,
otherwise bcrypt.compare. -/
def matchPassword (u : User) (entered : String) : Bool :=
  match u.password with
  | none => false
  | some h => decide (h = hashPasswordPreSave entered)

/-- The schema default for `picture`. -/
def defaultPicture : String := "https://randomuser.me/api/portraits/lego/1.jpg"

/-! ### Mongoose schema validation (user.model.js)

User.create and user.save run schema validation before the pre-save
hooks. The email match regex of the schema is
a word sequence, an at sign, a word sequence, then one or more groups of
a dot followed by two or three word characters; it is modelled below with
regex semantics (a string matches iff it decomposes into the fragments,
tried at every split point). user.save validates the modified paths, so
in resetPassword only the new plaintext password is validated
(minlength 8), while the reset fields carry no validators. -/

/-- JS regex word character: ASCII letters, digits, underscore. -/
def isWordChar (c : Char) : Bool := c.isAlphanum || c = '_'

/-- The dot-or-dash class of the schema email regex. -/
def isSepChar (c : Char) : Bool := c = '.' || c = '-'

/-- Continuation of the regex fragment of a word sequence after its first
word character: word characters freely, every separator followed by a
word character, nothing else. -/
def wordRun : List Char → Bool
  | [] => true
  | c :: rest =>
      if isWordChar c then wordRun rest
      else if isSepChar c then
        match rest with
        | [] => false
        | d :: rest2 => isWordChar d && wordRun rest2
      else false

/-- The word-sequence fragment: one or more word characters with single
dot or dash separators strictly inside. -/
def wordSeqOk : List Char → Bool
  | [] => false
  | c :: rest => isWordChar c && wordRun rest

/-- Scanner for the trailing dot groups, inside the current group with k
word characters seen so far: a new dot (or the end) is legal once the
group holds two or three characters, and a fourth word character is
illegal. -/
def tldScan : Nat → List Char → Bool
  | k, [] => decide (2 ≤ k)
  | k, '.' :: rest => decide (2 ≤ k) && tldScan 0 rest
  | k, c :: rest => isWordChar c && decide (k < 3) && tldScan (k + 1) rest

/-- One or more groups of a dot followed by exactly two or three word
characters. Within one dot-delimited segment only a single group can fit,
so this scan is equivalent to the regex fragment. -/
def tldGroups : List Char → Bool
  | '.' :: rest => tldScan 0 rest
  | _ => false

/-- The anchored schema email regex: word sequence, at sign, then a
domain that decomposes into a word sequence followed by at least one dot
group; the decomposition is sought at every split point. -/
def emailRegexOk (e : String) : Bool :=
  let cs := e.toList
  match cs.dropWhile (fun c => !(c = '@')) with
  | '@' :: m =>
      wordSeqOk (cs.takeWhile fun c => !(c = '@')) &&
        (List.range (m.length + 1)).any fun i =>
          wordSeqOk (m.take i) && tldGroups (m.drop i)
  | _ => false

/-- JS String.prototype.trim, modelled over the character list: strip
whitespace from both ends. -/
def jsTrim (s : String) : String :=
  ⟨((s.toList.dropWhile Char.isWhitespace).reverse.dropWhile
      Char.isWhitespace).reverse⟩

/-- The schema enum for role. -/
def validRole (r : String) : Bool := r = "user" || r = "talent" || r = "admin"

/-- The per-path mongoose validation failures of a new user document, in
schema path order, with the literal message strings of user.model.js
(the enum failure carries the mongoose default message). The name is
trimmed by the schema setter before validation; the password is the
plaintext, validated before the bcrypt pre-save hook runs, and required
only when no googleId is present. -/
def userValidationErrors (name email : String) (password : Option String)
    (hasGoogleId : Bool) (role : String) : List String :=
  (if (jsTrim name).isEmpty then ["name: Please add a name"]
   else if 50 < (jsTrim name).length then
     ["name: Name cannot be more than 50 characters"]
   else [])
  ++ (if email.isEmpty then ["email: Please add an email"]
      else if emailRegexOk email then []
      else ["email: Please add a valid email"])
  ++ (match password with
      | none => if hasGoogleId then [] else ["password: Please add a password"]
      | some p =>
          if p.isEmpty then
            if hasGoogleId then [] else ["password: Please add a password"]
          else if p.length < 8 then
            ["password: Password must be at least 8 characters"]
          else [])
  ++ (if validRole role then []
      else ["role: `" ++ role ++ "` is not a valid enum value for path `role`."])

/-! ### Credential store -/

structure DB where
  users : List User
  nextId : Nat
deriving DecidableEq

def findOneByEmail (db : DB) (e : String) : Option User :=
  db.users.find? fun u => decide (u.email = e)

def findById (db : DB) (i : Nat) : Option User :=
  db.users.find? fun u => decide (u.id = i)

/-- user.save() on an existing document: replace the stored record that
carries this document id. -/
def saveUser (db : DB) (u : User) : DB :=
  { db with users := db.users.map fun v => if v.id = u.id then u else v }

/-! ### Responses -/

inductive Field
  | str (s : String)
  | num (n : Nat)
  | pw (h : BcryptHash)
  | sha (s : Sha256)
  | tok (t : TokenStr)
deriving DecidableEq

abbrev JObj := List (String × Field)

inductive Body
  | msg (success : Bool) (message : String)
  | auth (token : TokenStr) (refreshToken : TokenStr)
      (accessTokenExpires : Nat) (refreshTokenExpires : Nat) (user : JObj)
  | me (data : JObj)
  | refreshed (token : TokenStr) (expires : Nat)
deriving DecidableEq

structure Response where
  status : Nat
  body : Body
deriving DecidableEq

def optField (k : String) : Option Field → JObj
  | none => []
  | some v => [(k, v)]

/-- The response the error middleware pair produces for a mongoose
ValidationError forwarded with next(err): errorConverter wraps it in an
ApiError first — the statusCode falls back to 500 (a ValidationError
carries none) and the name becomes ApiError — so errorHandler serializes
it through its default branch with the mongoose message. -/
def validationErrorResponse (errs : List String) : Response :=
  ⟨500, .msg false ("User validation failed: " ++ String.intercalate ", " errs)⟩

/-- Mongoose serialization of a user document: fields in schema order,
undefined fields absent, `password` present only when the query selected
it (schema select: false). -/
def serializeUser (u : User) (passwordSelected : Bool) : JObj :=
  [("_id", .num u.id), ("name", .str u.name), ("email", .str u.email)]
    ++ (if passwordSelected then optField "password" (u.password.map .pw) else [])
    ++ [("role", .str u.role)]
    ++ optField "googleId" (u.googleId.map .str)
    ++ optField "picture" (u.picture.map .str)
    ++ optField "refreshToken" (u.refreshToken.map .tok)
    ++ optField "refreshTokenExpiry" (u.refreshTokenExpiry.map .num)
    ++ optField "passwordResetToken" (u.passwordResetToken.map .sha)
    ++ optField "passwordResetExpire" (u.passwordResetExpire.map .num)

/-- sendTokenResponse: user.toObject() followed by delete of password,
refreshToken, refreshTokenExpiry, passwordResetToken, passwordResetExpire. -/
def sendTokenUserData (u : User) : JObj :=
  [("_id", .num u.id), ("name", .str u.name), ("email", .str u.email),
   ("role", .str u.role)]
    ++ optField "googleId" (u.googleId.map .str)
    ++ optField "picture" (u.picture.map .str)

/-! ### Auth controller (the auth controller in src/unnamed/part_000) -/

/-- Which strings are falsy in JS: empty string; `none` is
null/undefined. -/
def strFalsy : Option String → Bool
  | none => true
  | some s => s.isEmpty

/-- JS `a || d` on an optional string. -/
def jsOr (a : Option String) (d : String) : String :=
  match a with
  | none => d
  | some s => if s.isEmpty then d else s

/-- sendTokenResponse: issue access and refresh tokens; persist the
refresh token and its expiry on the user only when NODE_ENV is
production; respond with both tokens, both expiries and the sanitized
user object. -/
def sendTokenResponse (env : Env) (db : DB) (u : User) (statusCode : Nat)
    (now : Nat) : DB × Response :=
  let at_ := generateToken env now u.id u.role
  let rt := generateRefreshToken env now u.id
  let u2 := if env.production then
      { u with refreshToken := some rt.1, refreshTokenExpiry := some rt.2 }
    else u
  let db2 := if env.production then saveUser db u2 else db
  (db2, ⟨statusCode, .auth at_.1 rt.1 at_.2 rt.2 (sendTokenUserData u2)⟩)

/-- The document User.create builds in register once validation passed:
name trimmed by the schema setter, password hashed by the pre-save hook,
role defaulted by `role || user`, schema defaults applied. -/
def registeredUser (db : DB) (name email password : String)
    (role : Option String) : User :=
  { id := db.nextId, name := jsTrim name, email := email,
    password := some (hashPasswordPreSave password),
    role := jsOr role "user",
    googleId := none, picture := some defaultPicture,
    refreshToken := none, refreshTokenExpiry := none,
    passwordResetToken := none, passwordResetExpire := none }

/-- register: reject an already-registered email; otherwise User.create
runs schema validation — a failure propagates through next(err) to the
error middleware and no account is created — and on success the user is
stored and tokens are issued. The welcome email failure is caught and
only logged, so it does not affect the result. -/
def register (env : Env) (db : DB) (now : Nat)
    (name email password : String) (role : Option String) : DB × Response :=
  match findOneByEmail db email with
  | some _ => (db, ⟨400, .msg false "Email already registered"⟩)
  | none =>
      let errs := userValidationErrors name email (some password) false
        (jsOr role "user")
      if errs.isEmpty then
        let u := registeredUser db name email password role
        let db2 : DB := { users := db.users ++ [u], nextId := db.nextId + 1 }
        sendTokenResponse env db2 u 201 now
      else (db, validationErrorResponse errs)

/-- login: missing credentials give 400; a missing account, an account
with no stored hash and a failed comparison all give the same 401 body. -/
def login (env : Env) (db : DB) (now : Nat)
    (email password : Option String) : DB × Response :=
  if strFalsy email || strFalsy password then
    (db, ⟨400, .msg false "Please provide an email and password"⟩)
  else
    match findOneByEmail db (email.getD "") with
    | none => (db, ⟨401, .msg false "Invalid credentials"⟩)
    | some user =>
        if matchPassword user (password.getD "") then
          sendTokenResponse env db user 200 now
        else (db, ⟨401, .msg false "Invalid credentials"⟩)

/-- The identity payload extracted from a verified Google ID token. -/
structure GooglePayload where
  email : String
  name : String
  picture : Option String
  sub : String
deriving DecidableEq

/-- The mutation googleAuth performs on an existing account that has no
googleId yet: link the provider subject id; the picture is only filled
when the current value is falsy. -/
def linkGoogleUser (u : User) (p : GooglePayload) : User :=
  { u with googleId := some p.sub,
           picture := if strFalsy u.picture then p.picture else u.picture }

/-- The document User.create builds in googleAuth for a brand-new email
once validation passed: no password hash, provider subject id set, the
schema picture default applied when the payload carries none. -/
def newGoogleUser (db : DB) (role : Option String) (p : GooglePayload) :
    User :=
  { id := db.nextId, name := jsTrim p.name, email := p.email,
    password := none, role := jsOr role "user",
    googleId := some p.sub,
    picture := some (p.picture.getD defaultPicture),
    refreshToken := none, refreshTokenExpiry := none,
    passwordResetToken := none, passwordResetExpire := none }

/-- googleAuth: with a verified payload, an existing account gains the
provider subject id only when it has none (picture filled only when
falsy; the save touches only the unvalidated googleId and picture paths,
so it cannot fail validation); for a brand-new email User.create runs
schema validation on the payload — a failure propagates through
next(err) to the error middleware and no account is created — and
otherwise an account with no password hash is created. -/
def googleAuth (env : Env) (db : DB) (now : Nat) (token : Option String)
    (role : Option String) (payload : Option GooglePayload) : DB × Response :=
  if strFalsy token then
    (db, ⟨400, .msg false "No Google token provided"⟩)
  else
    match payload with
    | none => (db, ⟨400, .msg false "Invalid Google token"⟩)
    | some p =>
        match findOneByEmail db p.email with
        | some user =>
            if strFalsy user.googleId then
              let u2 := linkGoogleUser user p
              sendTokenResponse env (saveUser db u2) u2 200 now
            else sendTokenResponse env db user 200 now
        | none =>
            let errs := userValidationErrors p.name p.email none true
              (jsOr role "user")
            if errs.isEmpty then
              let u := newGoogleUser db role p
              let db2 : DB :=
                { users := db.users ++ [u], nextId := db.nextId + 1 }
              sendTokenResponse env db2 u 200 now
            else (db, validationErrorResponse errs)

/-- getMe: 404 when the id resolves to no account; otherwise 200 with the
document as returned by findById (password not selected, every other
present field serialized). -/
def getMe (db : DB) (userId : Nat) : Response :=
  match findById db userId with
  | none => ⟨404, .msg false "User not found"⟩
  | some u => ⟨200, .me (serializeUser u false)⟩

/-- refreshToken controller: 400 when absent, 401 with the specific
verification message on failure, 401 when the subject resolves to no
account, otherwise a fresh access token; no branch writes to the store. -/
def refreshTokenCtrl (env : Env) (db : DB) (bl : Blacklist) (now : Nat)
    (rt : Option TokenStr) : DB × Response :=
  if tokFalsy rt then
    (db, ⟨400, .msg false "Refresh token is required"⟩)
  else
    match rt with
    | none => (db, ⟨400, .msg false "Refresh token is required"⟩)
    | some t =>
        match verifyRefreshToken bl env now t with
        | .error e => (db, ⟨401, .msg false (refreshErrMsg e)⟩)
        | .ok decoded =>
            match findById db decoded.id with
            | none => (db, ⟨401, .msg false "User not found"⟩)
            | some user =>
                let at_ := generateToken env now user.id user.role
                (db, ⟨200, .refreshed at_.1 at_.2⟩)

/-- forgotPassword: the generic success body is sent both when no account
matches and when delivery succeeds; on delivery failure the persisted
reset fields are cleared again and the operation fails with 500.
`resetTokenPlain` is the random token drawn by generatePasswordResetToken
(10 minute TTL); `emailOk` is the outcome of the email collaborator. -/
def forgotPassword (db : DB) (now : Nat) (email : Option String)
    (resetTokenPlain : String) (emailOk : Bool) : DB × Response :=
  if strFalsy email then
    (db, ⟨400, .msg false "Please provide an email address"⟩)
  else
    match findOneByEmail db (email.getD "") with
    | none =>
        (db, ⟨200, .msg true "If an account exists, a password reset email will be sent"⟩)
    | some user =>
        let u2 := { user with
          passwordResetToken := some (sha256Hex resetTokenPlain),
          passwordResetExpire := some (now + 600) }
        let db2 := saveUser db u2
        if emailOk then
          (db2, ⟨200, .msg true "If an account exists, a password reset email will be sent"⟩)
        else
          let u3 := { u2 with
            passwordResetToken := none, passwordResetExpire := none }
          (saveUser db2 u3, ⟨500, .msg false "Email could not be sent"⟩)

/-- The findOne query of resetPassword: stored hash equals the digest of
the supplied token and the expiry is strictly in the future. -/
def resetMatch (h : Sha256) (now : Nat) (u : User) : Bool :=
  decide (u.passwordResetToken = some h) &&
    match u.passwordResetExpire with
    | some e => decide (now < e)
    | none => false

/-- resetPassword: missing inputs give 400; no account matching
hash-and-unexpired gives the single 400 body; on match user.save
validates the modified paths — the new plaintext password against
minlength 8, the reset fields carrying no validators — so a too-short
password throws, is caught by the inner catch and answered with 400
Invalid reset token format while the store keeps the persisted reset
fields; otherwise the new password goes through the pre-save hash and
both reset fields are cleared. -/
def resetPassword (db : DB) (now : Nat) (token : Option String)
    (password : Option String) : DB × Response :=
  if strFalsy password then
    (db, ⟨400, .msg false "Please provide a new password"⟩)
  else if strFalsy token then
    (db, ⟨400, .msg false "Invalid reset token"⟩)
  else
    let h := sha256Hex (token.getD "")
    match db.users.find? (resetMatch h now) with
    | none => (db, ⟨400, .msg false "Invalid or expired token"⟩)
    | some user =>
        if 8 ≤ (password.getD "").length then
          let u2 := { user with
            password := some (hashPasswordPreSave (password.getD "")),
            passwordResetToken := none, passwordResetExpire := none }
          (saveUser db u2, ⟨200, .msg true "Password reset successful"⟩)
        else (db, ⟨400, .msg false "Invalid reset token format"⟩)

/-! ### Helper lemmas -/

theorem mem_saveUser {db : DB} {u v : User}
    (hv : v ∈ (saveUser db u).users) :
    v = u ∨ (v ∈ db.users ∧ v.id ≠ u.id) := by
  simp only [saveUser, List.mem_map] at hv
  obtain ⟨w, hw, hfw⟩ := hv
  by_cases h : w.id = u.id
  · left
    simpa [h] using hfw.symm
  · right
    simp only [if_neg h] at hfw
    exact ⟨hfw ▸ hw, hfw ▸ h⟩

/-- saveUser leaves a user list unchanged when no stored user carries the
saved document's id. -/
theorem map_replace_eq_self (l : List User) (u : User)
    (h : ∀ v ∈ l, v.id ≠ u.id) :
    (l.map fun v => if v.id = u.id then u else v) = l := by
  induction l with
  | nil => rfl
  | cons a t ih =>
      have ha : a.id ≠ u.id := h a (List.mem_cons_self a t)
      simp only [List.map_cons, if_neg ha, List.cons.injEq, true_and]
      exact ih fun v hv => h v (List.mem_cons_of_mem a hv)

/-- Saving a document whose id is fresh for `l` but carried by the single
appended element only replaces that element. -/
theorem replace_append_fresh (l : List User) (a u : User)
    (hfresh : ∀ v ∈ l, v.id ≠ u.id) (ha : a.id = u.id) :
    ((l ++ [a]).map fun v => if v.id = u.id then u else v) = l ++ [u] := by
  rw [List.map_append, map_replace_eq_self l u hfresh]
  simp [ha]

/-- A key appearing in `optField k o` is `k` itself. -/
theorem optField_key {kv : String × Field} {k : String} {o : Option Field}
    (h : kv ∈ optField k o) : kv.1 = k := by
  cases o with
  | none => simp [optField] at h
  | some v =>
      simp only [optField, List.mem_singleton] at h
      simp [h]

/-- Membership in an optional serialized field. -/
theorem mem_optField {kv : String × Field} {k : String} {o : Option Field} :
    kv ∈ optField k o ↔ ∃ v, o = some v ∧ kv = (k, v) := by
  cases o <;> simp [optField]

/-! ### C1 -/

/-- C1: a token with a valid signature and an unexpired expiry, once
passed to blacklistToken, is rejected by every subsequent verifyToken and
verifyRefreshToken call (within the token's lifetime, before the
scheduled blacklist cleanup at its natural expiry) with the revoked error
kind: the blacklist membership check runs before the signature and expiry
checks, so revocation takes precedence even when those checks would
pass. -/
theorem revocation_precedence (bl : Blacklist) (env : Env) (now : Nat)
    (p : JwtPayload) (s : String) (hexp : now < p.exp) :
    ∀ now2, now2 < p.exp →
      verifyToken (blacklistToken bl (some (.signed p s)) now) env now2
          (.signed p s) = .error .revoked ∧
      verifyRefreshToken (blacklistToken bl (some (.signed p s)) now) env
          now2 (.signed p s) = .error .revoked := by
  intro now2 h2
  have hbl : blacklistToken bl (some (.signed p s)) now =
      (TokenStr.signed p s, some p.exp) :: bl := by
    simp [blacklistToken, tokFalsy, jwtDecode, hexp]
  have hmem : isBlacklisted ((TokenStr.signed p s, some p.exp) :: bl) now2
      (.signed p s) = true := by
    simp [isBlacklisted, h2]
  rw [hbl]
  constructor
  · simp [verifyToken, hmem]
  · simp [verifyRefreshToken, hmem]

theorem revocation_precedence_witness :
    verifyToken (blacklistToken [] (some (.signed ⟨1, none, 5⟩ "s")) 0)
        ⟨"s", none, false, 1, 1⟩ 1 (.signed ⟨1, none, 5⟩ "s") =
      .error .revoked ∧
    verifyRefreshToken (blacklistToken [] (some (.signed ⟨1, none, 5⟩ "s")) 0)
        ⟨"s", none, false, 1, 1⟩ 1 (.signed ⟨1, none, 5⟩ "s") =
      .error .revoked :=
  revocation_precedence [] ⟨"s", none, false, 1, 1⟩ 0 ⟨1, none, 5⟩ "s"
    (by decide) 1 (by decide)

/-! ### C10 -/

/-- C10: blacklistToken with any non-falsy token makes it a member of the
revocation set immediately, so verifyToken and verifyRefreshToken reject
it as revoked; a non-decodable token gets no expiry-based removal
scheduled (it is revoked at every later time as well); a null/undefined
or empty token leaves the set unchanged. The modelled operation is total:
no input makes it throw. -/
theorem blacklist_membership (bl : Blacklist) (env : Env) (now : Nat) :
    (∀ t : TokenStr, tokFalsy (some t) = false →
      isBlacklisted (blacklistToken bl (some t) now) now t = true ∧
      verifyToken (blacklistToken bl (some t) now) env now t =
        .error .revoked ∧
      verifyRefreshToken (blacklistToken bl (some t) now) env now t =
        .error .revoked) ∧
    (∀ s : String, s.isEmpty = false →
      blacklistToken bl (some (.garbage s)) now =
        (TokenStr.garbage s, none) :: bl ∧
      ∀ now2, verifyToken (blacklistToken bl (some (.garbage s)) now) env
          now2 (.garbage s) = .error .revoked) ∧
    blacklistToken bl none now = bl ∧
    blacklistToken bl (some (.garbage "")) now = bl := by
  refine ⟨?_, ?_, ?_, ?_⟩
  · intro t ht
    have hmem : isBlacklisted (blacklistToken bl (some t) now) now t = true := by
      cases t with
      | garbage s =>
          simp only [blacklistToken, ht, if_false, jwtDecode]
          simp [isBlacklisted]
      | signed p s =>
          simp only [blacklistToken, ht, if_false, jwtDecode]
          by_cases h : now < p.exp
          · simp [isBlacklisted, h]
          · simp [isBlacklisted, h]
    exact ⟨hmem, by simp [verifyToken, hmem], by simp [verifyRefreshToken, hmem]⟩
  · intro s hs
    have hbl : blacklistToken bl (some (.garbage s)) now =
        (TokenStr.garbage s, none) :: bl := by
      simp [blacklistToken, tokFalsy, hs, jwtDecode]
    refine ⟨hbl, ?_⟩
    intro now2
    rw [hbl]
    simp [verifyToken, isBlacklisted]
  · simp [blacklistToken, tokFalsy]
  · simp [blacklistToken, tokFalsy, String.isEmpty]

theorem blacklist_membership_witness :
    isBlacklisted (blacklistToken [] (some (.garbage "zzz")) 7) 7
        (.garbage "zzz") = true ∧
    verifyToken (blacklistToken [] (some (.garbage "zzz")) 7)
        ⟨"s", none, false, 1, 1⟩ 7 (.garbage "zzz") = .error .revoked ∧
    verifyRefreshToken (blacklistToken [] (some (.garbage "zzz")) 7)
        ⟨"s", none, false, 1, 1⟩ 7 (.garbage "zzz") = .error .revoked :=
  (blacklist_membership [] ⟨"s", none, false, 1, 1⟩ 7).1 (.garbage "zzz")
    (by decide)

/-! ### C2 -/

/-- C2: login with a non-existent email, login against an account with no
stored password hash, and login with a wrong password all return the same
401 body (success false, "Invalid credentials"); forgotPassword for a
non-existent email and for an existing email with successful delivery
return the same generic success body — in both operations the response
does not reveal whether the account exists. -/
theorem enumeration_resistance
    (env : Env) (db1 db2 db3 db4 db5 : DB) (now : Nat)
    (e1 p1 e2 p2 e3 p3 e4 e5 r4 r5 : String) (u2 u3 u5 : User)
    (he1 : e1.isEmpty = false) (hp1 : p1.isEmpty = false)
    (he2 : e2.isEmpty = false) (hp2 : p2.isEmpty = false)
    (he3 : e3.isEmpty = false) (hp3 : p3.isEmpty = false)
    (he4 : e4.isEmpty = false) (he5 : e5.isEmpty = false)
    (h1 : findOneByEmail db1 e1 = none)
    (h2 : findOneByEmail db2 e2 = some u2) (hpw2 : u2.password = none)
    (h3 : findOneByEmail db3 e3 = some u3)
    (hm3 : matchPassword u3 p3 = false)
    (h4 : findOneByEmail db4 e4 = none)
    (h5 : findOneByEmail db5 e5 = some u5) :
    (login env db1 now (some e1) (some p1)).2 =
      ⟨401, .msg false "Invalid credentials"⟩ ∧
    (login env db2 now (some e2) (some p2)).2 =
      (login env db1 now (some e1) (some p1)).2 ∧
    (login env db3 now (some e3) (some p3)).2 =
      (login env db1 now (some e1) (some p1)).2 ∧
    (forgotPassword db4 now (some e4) r4 true).2 =
      ⟨200, .msg true "If an account exists, a password reset email will be sent"⟩ ∧
    (forgotPassword db5 now (some e5) r5 true).2 =
      (forgotPassword db4 now (some e4) r4 true).2 := by
  have hmp2 : matchPassword u2 p2 = false := by
    simp [matchPassword, hpw2]
  refine ⟨?_, ?_, ?_, ?_, ?_⟩
  · simp [login, strFalsy, he1, hp1, h1]
  · simp [login, strFalsy, he1, hp1, h1, he2, hp2, h2, hmp2]
  · simp [login, strFalsy, he1, hp1, h1, he3, hp3, h3, hm3]
  · simp [forgotPassword, strFalsy, he4, h4]
  · simp [forgotPassword, strFalsy, he4, h4, he5, h5]

theorem enumeration_resistance_witness :
    (login ⟨"s", none, false, 1, 1⟩ ⟨[], 0⟩ 0 (some "a@x.com") (some "pw")).2 =
      ⟨401, .msg false "Invalid credentials"⟩ ∧
    (login ⟨"s", none, false, 1, 1⟩
        ⟨[⟨1, "B", "b@x.com", none, "user", some "g1", none, none, none, none, none⟩], 2⟩
        0 (some "b@x.com") (some "pw")).2 =
      (login ⟨"s", none, false, 1, 1⟩ ⟨[], 0⟩ 0 (some "a@x.com") (some "pw")).2 ∧
    (login ⟨"s", none, false, 1, 1⟩
        ⟨[⟨1, "C", "c@x.com", some ⟨"right"⟩, "user", none, none, none, none, none, none⟩], 2⟩
        0 (some "c@x.com") (some "wrong")).2 =
      (login ⟨"s", none, false, 1, 1⟩ ⟨[], 0⟩ 0 (some "a@x.com") (some "pw")).2 ∧
    (forgotPassword ⟨[], 0⟩ 0 (some "a@x.com") "r" true).2 =
      ⟨200, .msg true "If an account exists, a password reset email will be sent"⟩ ∧
    (forgotPassword
        ⟨[⟨1, "C", "c@x.com", some ⟨"right"⟩, "user", none, none, none, none, none, none⟩], 2⟩
        0 (some "c@x.com") "r" true).2 =
      (forgotPassword ⟨[], 0⟩ 0 (some "a@x.com") "r" true).2 :=
  enumeration_resistance ⟨"s", none, false, 1, 1⟩ ⟨[], 0⟩
    ⟨[⟨1, "B", "b@x.com", none, "user", some "g1", none, none, none, none, none⟩], 2⟩
    ⟨[⟨1, "C", "c@x.com", some ⟨"right"⟩, "user", none, none, none, none, none, none⟩], 2⟩
    ⟨[], 0⟩
    ⟨[⟨1, "C", "c@x.com", some ⟨"right"⟩, "user", none, none, none, none, none, none⟩], 2⟩
    0 "a@x.com" "pw" "b@x.com" "pw" "c@x.com" "wrong" "a@x.com" "c@x.com" "r" "r"
    ⟨1, "B", "b@x.com", none, "user", some "g1", none, none, none, none, none⟩
    ⟨1, "C", "c@x.com", some ⟨"right"⟩, "user", none, none, none, none, none, none⟩
    ⟨1, "C", "c@x.com", some ⟨"right"⟩, "user", none, none, none, none, none, none⟩
    (by decide) (by decide) (by decide) (by decide) (by decide) (by decide)
    (by decide) (by decide)
    (by decide) (by decide) (by decide) (by decide) (by decide) (by decide)
    (by decide)

/-! ### C5 -/

/-- C5: when the reset email cannot be delivered for an existing account,
forgotPassword clears the reset-token hash and expiry it had just
persisted and fails with 500 "Email could not be sent"; afterwards the
account holds no outstanding reset token. -/
theorem forgot_password_rollback (db : DB) (now : Nat) (e rt : String)
    (u : User) (he : e.isEmpty = false)
    (hu : findOneByEmail db e = some u) :
    (forgotPassword db now (some e) rt false).2 =
      ⟨500, .msg false "Email could not be sent"⟩ ∧
    ∀ v ∈ (forgotPassword db now (some e) rt false).1.users,
      v.id = u.id →
        v.passwordResetToken = none ∧ v.passwordResetExpire = none := by
  have hfp : forgotPassword db now (some e) rt false =
      (saveUser (saveUser db
          { u with passwordResetToken := some (sha256Hex rt),
                   passwordResetExpire := some (now + 600) })
          { u with passwordResetToken := none, passwordResetExpire := none },
       ⟨500, .msg false "Email could not be sent"⟩) := by
    simp [forgotPassword, strFalsy, he, hu]
  refine ⟨by rw [hfp], ?_⟩
  intro v hv hid
  rw [hfp] at hv
  rcases mem_saveUser hv with h | ⟨hv2, hne⟩
  · simp [h]
  · rcases mem_saveUser hv2 with h | ⟨_, hne2⟩
    · exact absurd (by simp [h]) hne
    · exact absurd hid (by simpa using hne2)

theorem forgot_password_rollback_witness :
    (forgotPassword
        ⟨[⟨1, "C", "c@x.com", some ⟨"right"⟩, "user", none, none, none, none,
            some ⟨"old"⟩, some 99⟩], 2⟩
        0 (some "c@x.com") "fresh" false).2 =
      ⟨500, .msg false "Email could not be sent"⟩ :=
  (forgot_password_rollback
    ⟨[⟨1, "C", "c@x.com", some ⟨"right"⟩, "user", none, none, none, none,
        some ⟨"old"⟩, some 99⟩], 2⟩
    0 "c@x.com" "fresh"
    ⟨1, "C", "c@x.com", some ⟨"right"⟩, "user", none, none, none, none,
      some ⟨"old"⟩, some 99⟩
    (by decide) (by decide)).1

/-! ### C6 -/

/-- C6: refresh fails with 400 when the refresh token is absent, with 401
carrying the specific verification failure message (expired / invalid /
revoked) when verification fails, and with 401 when the decoded subject
resolves to no account; on success it returns a fresh access token with
its expiry only — no branch writes to the store, so the refresh token is
not rotated and the stored refresh-token fields are untouched. -/
theorem refresh_ctrl_spec (env : Env) (db : DB) (bl : Blacklist)
    (now : Nat) :
    (∀ rt, (refreshTokenCtrl env db bl now rt).1 = db) ∧
    (∀ rt, tokFalsy rt = true →
      refreshTokenCtrl env db bl now rt =
        (db, ⟨400, .msg false "Refresh token is required"⟩)) ∧
    (∀ t e, tokFalsy (some t) = false →
      verifyRefreshToken bl env now t = .error e →
      refreshTokenCtrl env db bl now (some t) =
        (db, ⟨401, .msg false (refreshErrMsg e)⟩)) ∧
    (∀ t p, tokFalsy (some t) = false →
      verifyRefreshToken bl env now t = .ok p →
      findById db p.id = none →
      refreshTokenCtrl env db bl now (some t) =
        (db, ⟨401, .msg false "User not found"⟩)) ∧
    (∀ t p u, tokFalsy (some t) = false →
      verifyRefreshToken bl env now t = .ok p →
      findById db p.id = some u →
      refreshTokenCtrl env db bl now (some t) =
        (db, ⟨200, .refreshed (generateToken env now u.id u.role).1
                     (generateToken env now u.id u.role).2⟩)) := by
  refine ⟨?_, ?_, ?_, ?_, ?_⟩
  · intro rt
    rcases rt with _ | t
    · simp [refreshTokenCtrl, tokFalsy]
    · by_cases hf : tokFalsy (some t) = true
      · simp [refreshTokenCtrl, hf]
      · rw [Bool.not_eq_true] at hf
        rcases hv : verifyRefreshToken bl env now t with e | p
        · simp [refreshTokenCtrl, hf, hv]
        · rcases hu : findById db p.id with _ | u <;>
            simp [refreshTokenCtrl, hf, hv, hu]
  · intro rt hrt
    rcases rt with _ | t
    · simp [refreshTokenCtrl, tokFalsy]
    · simp [refreshTokenCtrl, hrt]
  · intro t e ht hv
    simp [refreshTokenCtrl, ht, hv]
  · intro t p ht hv hu
    simp [refreshTokenCtrl, ht, hv, hu]
  · intro t p u ht hv hu
    simp [refreshTokenCtrl, ht, hv, hu]

theorem refresh_ctrl_spec_witness :
    refreshTokenCtrl ⟨"s", some "r", false, 100, 1000⟩
        ⟨[⟨1, "C", "c@x.com", some ⟨"right"⟩, "user", none, none, none, none,
            none, none⟩], 2⟩
        [] 0 (some (.signed ⟨1, none, 50⟩ "r")) =
      (⟨[⟨1, "C", "c@x.com", some ⟨"right"⟩, "user", none, none, none, none,
            none, none⟩], 2⟩,
       ⟨200, .refreshed (TokenStr.signed ⟨1, some "user", 100⟩ "s") 100⟩) :=
  ((refresh_ctrl_spec ⟨"s", some "r", false, 100, 1000⟩
      ⟨[⟨1, "C", "c@x.com", some ⟨"right"⟩, "user", none, none, none, none,
          none, none⟩], 2⟩
      [] 0).2.2.2.2 (.signed ⟨1, none, 50⟩ "r") ⟨1, none, 50⟩
      ⟨1, "C", "c@x.com", some ⟨"right"⟩, "user", none, none, none, none,
          none, none⟩
      (by decide) rfl rfl)

/-! ### C7 -/

/-- C7: sendTokenResponse — the single path through which Register, Login
and Federated Login issue tokens — writes the freshly issued refresh
token and its expiry onto the account exactly when NODE_ENV is
production, leaves the store untouched in any other mode, and in both
modes responds with both tokens and both expiries; each of the three
operations' success paths (for register and a brand-new federated email,
inputs that pass the schema validation, so that User.create succeeds) is
literally a call of sendTokenResponse. -/
theorem refresh_token_persisted_iff_production (env : Env) (db : DB)
    (u : User) (code now : Nat) :
    (env.production = true →
      (sendTokenResponse env db u code now).1 =
        saveUser db { u with
          refreshToken := some (generateRefreshToken env now u.id).1,
          refreshTokenExpiry := some (generateRefreshToken env now u.id).2 }) ∧
    (env.production = false →
      (sendTokenResponse env db u code now).1 = db) ∧
    (∃ userData, (sendTokenResponse env db u code now).2 =
      ⟨code, .auth (generateToken env now u.id u.role).1
          (generateRefreshToken env now u.id).1
          (generateToken env now u.id u.role).2
          (generateRefreshToken env now u.id).2 userData⟩) ∧
    (∀ name email pw role, findOneByEmail db email = none →
      userValidationErrors name email (some pw) false (jsOr role "user") = [] →
      (registeredUser db name email pw role).email = email ∧
      register env db now name email pw role =
        sendTokenResponse env
          ⟨db.users ++ [registeredUser db name email pw role], db.nextId + 1⟩
          (registeredUser db name email pw role) 201 now) ∧
    (∀ e p u2, e.isEmpty = false → p.isEmpty = false →
      findOneByEmail db e = some u2 → matchPassword u2 p = true →
      login env db now (some e) (some p) =
        sendTokenResponse env db u2 200 now) ∧
    (∀ gt role p, gt.isEmpty = false →
      userValidationErrors p.name p.email none true (jsOr role "user") = [] →
      ∃ u2 db2, googleAuth env db now (some gt) role (some p) =
        sendTokenResponse env db2 u2 200 now) := by
  have hgt : ∀ s : String, s.isEmpty = false → strFalsy (some s) = false := by
    intro s hs
    simpa [strFalsy] using hs
  refine ⟨?_, ?_, ?_, ?_, ?_, ?_⟩
  · intro hp
    simp [sendTokenResponse, hp]
  · intro hp
    simp [sendTokenResponse, hp]
  · by_cases hp : env.production
    · exact ⟨sendTokenUserData
        { u with refreshToken := some (generateRefreshToken env now u.id).1,
                 refreshTokenExpiry := some (generateRefreshToken env now u.id).2 },
        by simp [sendTokenResponse, hp]⟩
    · exact ⟨sendTokenUserData u, by simp [sendTokenResponse, hp]⟩
  · intro name email pw role hnone hval
    exact ⟨rfl, by simp [register, hnone, hval]⟩
  · intro e p u2 he hp hfind hmatch
    simp [login, strFalsy, he, hp, hfind, hmatch]
  · intro gt role p hgt2 hval
    rcases hfind : findOneByEmail db p.email with _ | u2
    · refine ⟨newGoogleUser db role p,
        ⟨db.users ++ [newGoogleUser db role p], db.nextId + 1⟩, ?_⟩
      simp [googleAuth, hgt gt hgt2, hfind, hval]
    · by_cases hg : strFalsy u2.googleId = true
      · refine ⟨linkGoogleUser u2 p, saveUser db (linkGoogleUser u2 p), ?_⟩
        simp [googleAuth, hgt gt hgt2, hfind, hg]
      · rw [Bool.not_eq_true] at hg
        refine ⟨u2, db, ?_⟩
        simp [googleAuth, hgt gt hgt2, hfind, hg]

theorem refresh_token_persisted_iff_production_witness :
    ((sendTokenResponse ⟨"s", some "r", true, 100, 1000⟩
        ⟨[⟨1, "C", "c@x.com", some ⟨"right"⟩, "user", none, none, none, none,
            none, none⟩], 2⟩
        ⟨1, "C", "c@x.com", some ⟨"right"⟩, "user", none, none, none, none,
            none, none⟩ 200 0).1 =
      saveUser
        ⟨[⟨1, "C", "c@x.com", some ⟨"right"⟩, "user", none, none, none, none,
            none, none⟩], 2⟩
        ⟨1, "C", "c@x.com", some ⟨"right"⟩, "user", none, none,
          some (TokenStr.signed ⟨1, none, 1000⟩ "r"), some 1000,
          none, none⟩) :=
  (refresh_token_persisted_iff_production ⟨"s", some "r", true, 100, 1000⟩
    ⟨[⟨1, "C", "c@x.com", some ⟨"right"⟩, "user", none, none, none, none,
        none, none⟩], 2⟩
    ⟨1, "C", "c@x.com", some ⟨"right"⟩, "user", none, none, none, none,
        none, none⟩ 200 0).1 rfl

/-! ### C3 -/

/-- C3: when no account with email E exists and the first registration's
inputs pass the schema validation (so that User.create succeeds),
registering with E and then registering a second time with E makes the
second attempt fail with the duplicate-email conflict response — the
duplicate check runs before validation, so the second attempt is
rejected whatever its other inputs; the second attempt changes nothing
in the store (in particular the first account is untouched), and exactly
one account with email E exists after both attempts. -/
theorem registration_uniqueness (env : Env) (db : DB)
    (now1 now2 : Nat) (n1 n2 e pw1 pw2 : String) (r1 r2 : Option String)
    (h0 : findOneByEmail db e = none)
    (hval : userValidationErrors n1 e (some pw1) false (jsOr r1 "user") = [])
    (hid : ∀ u ∈ db.users, u.id ≠ db.nextId) :
    (register env (register env db now1 n1 e pw1 r1).1 now2 n2 e pw2 r2).2 =
      ⟨400, .msg false "Email already registered"⟩ ∧
    (register env (register env db now1 n1 e pw1 r1).1 now2 n2 e pw2 r2).1 =
      (register env db now1 n1 e pw1 r1).1 ∧
    (register env db now1 n1 e pw1 r1).1.users.countP
        (fun u => decide (u.email = e)) = 1 ∧
    (register env (register env db now1 n1 e pw1 r1).1 now2 n2 e pw2
        r2).1.users.countP (fun u => decide (u.email = e)) = 1 := by
  have hreg1 : register env db now1 n1 e pw1 r1 =
      sendTokenResponse env
        ⟨db.users ++ [registeredUser db n1 e pw1 r1],
          db.nextId + 1⟩
        (registeredUser db n1 e pw1 r1) 201 now1 := by
    simp [register, h0, hval]
  have husers : ∃ w : User, w.email = e ∧
      (register env db now1 n1 e pw1 r1).1.users = db.users ++ [w] := by
    rw [hreg1]
    by_cases hp : env.production
    · refine ⟨{ registeredUser db n1 e pw1 r1 with
          refreshToken :=
            some (generateRefreshToken env now1 (registeredUser db n1 e pw1 r1).id).1,
          refreshTokenExpiry :=
            some (generateRefreshToken env now1 (registeredUser db n1 e pw1 r1).id).2 },
        rfl, ?_⟩
      simp only [sendTokenResponse, hp, if_true, saveUser]
      exact replace_append_fresh db.users (registeredUser db n1 e pw1 r1)
        { registeredUser db n1 e pw1 r1 with
          refreshToken :=
            some (generateRefreshToken env now1 (registeredUser db n1 e pw1 r1).id).1,
          refreshTokenExpiry :=
            some (generateRefreshToken env now1 (registeredUser db n1 e pw1 r1).id).2 }
        (fun v hv => hid v hv) rfl
    · exact ⟨registeredUser db n1 e pw1 r1, rfl, by simp [sendTokenResponse, hp]⟩
  obtain ⟨w, hwe, hwl⟩ := husers
  generalize hdb1 : (register env db now1 n1 e pw1 r1).1 = db1 at hwl ⊢
  have hfind1 : findOneByEmail db1 e = some w := by
    show db1.users.find? (fun u => decide (u.email = e)) = some w
    rw [hwl, List.find?_append]
    have h1 : db.users.find? (fun u => decide (u.email = e)) = none := h0
    rw [h1]
    simp [List.find?, hwe]
  have hreg2 : register env db1 now2 n2 e pw2 r2 =
      (db1, ⟨400, .msg false "Email already registered"⟩) := by
    simp [register, hfind1]
  have hcount : db1.users.countP (fun u => decide (u.email = e)) = 1 := by
    rw [hwl, List.countP_append]
    have hz : db.users.countP (fun u => decide (u.email = e)) = 0 := by
      refine List.countP_eq_zero.mpr ?_
      intro v hv
      simpa using List.find?_eq_none.mp h0 v hv
    rw [hz]
    simp [List.countP, List.countP.go, hwe]
  exact ⟨by rw [hreg2], by rw [hreg2], hcount, by rw [hreg2]; exact hcount⟩

theorem registration_uniqueness_witness :
    (register ⟨"s", none, false, 1, 1⟩
        (register ⟨"s", none, false, 1, 1⟩ ⟨[], 0⟩ 0 "A" "a@x.com" "password1"
            none).1
        0 "A" "a@x.com" "password2" none).2 =
      ⟨400, .msg false "Email already registered"⟩ :=
  (registration_uniqueness ⟨"s", none, false, 1, 1⟩ ⟨[], 0⟩ 0 0 "A" "A"
    "a@x.com" "password1" "password2" none none rfl (by decide)
    (by intro u hu; simp at hu)).1

/-! ### C4 -/

/-- C4: resetPassword succeeds only when some account's stored
reset-token hash equals the sha256 of the supplied token and its expiry
is still in the future; with a matching account and a new password that
passes the save validation (minlength 8) the new password goes through
hashPasswordPreSave (the registration hashing path) and both reset
fields are cleared, so re-running resetPassword with the same plain
token fails with 400 "Invalid or expired token"; every no-match failure
(wrong token or expired token alike) returns that same single body; and
with a matching account but a too-short new password the save validation
fails — 400 "Invalid reset token format" and the store, reset fields
included, is unchanged. -/
theorem reset_password_single_use
    (db : DB) (now now2 : Nat) (tok pw pw2 : String) (u : User)
    (htok : tok.isEmpty = false) (hpw : pw.isEmpty = false)
    (hplen : 8 ≤ pw.length) (hpw2 : pw2.isEmpty = false)
    (hmatch : db.users.find? (resetMatch (sha256Hex tok) now) = some u)
    (huniq : ∀ v ∈ db.users,
      v.passwordResetToken = some (sha256Hex tok) → v.id = u.id) :
    resetPassword db now (some tok) (some pw) =
      (saveUser db { u with password := some (hashPasswordPreSave pw),
                            passwordResetToken := none,
                            passwordResetExpire := none },
       ⟨200, .msg true "Password reset successful"⟩) ∧
    (resetPassword (resetPassword db now (some tok) (some pw)).1 now2
        (some tok) (some pw2)).2 =
      ⟨400, .msg false "Invalid or expired token"⟩ ∧
    (∀ db0 now0 t0 p0, t0.isEmpty = false → p0.isEmpty = false →
      db0.users.find? (resetMatch (sha256Hex t0) now0) = none →
      resetPassword db0 now0 (some t0) (some p0) =
        (db0, ⟨400, .msg false "Invalid or expired token"⟩)) ∧
    (∀ db0 now0 t0 p0 b, t0.isEmpty = false → p0.isEmpty = false →
      (resetPassword db0 now0 (some t0) (some p0)).2 = ⟨200, b⟩ →
      ∃ v ∈ db0.users, v.passwordResetToken = some (sha256Hex t0) ∧
        ∃ ex, v.passwordResetExpire = some ex ∧ now0 < ex) ∧
    (∀ p3, p3.isEmpty = false → p3.length < 8 →
      resetPassword db now (some tok) (some p3) =
        (db, ⟨400, .msg false "Invalid reset token format"⟩)) := by
  have hstep : resetPassword db now (some tok) (some pw) =
      (saveUser db { u with password := some (hashPasswordPreSave pw),
                            passwordResetToken := none,
                            passwordResetExpire := none },
       ⟨200, .msg true "Password reset successful"⟩) := by
    simp [resetPassword, strFalsy, htok, hpw, hmatch, hplen]
  refine ⟨hstep, ?_, ?_, ?_, ?_⟩
  · generalize hdb1 : (resetPassword db now (some tok) (some pw)).1 = db1
    have hnone : db1.users.find? (resetMatch (sha256Hex tok) now2) = none := by
      rw [← hdb1, hstep]
      refine List.find?_eq_none.mpr ?_
      intro v hv
      rcases mem_saveUser hv with h | ⟨hvdb, hvid⟩
      · subst h
        simp [resetMatch]
      · intro hres
        have htokv : v.passwordResetToken = some (sha256Hex tok) := by
          have := (Bool.and_eq_true _ _).mp hres
          exact of_decide_eq_true this.1
        exact hvid (by simpa using huniq v hvdb htokv)
    simp [resetPassword, strFalsy, htok, hpw2, hnone]
  · intro db0 now0 t0 p0 ht0 hp0 hfind
    simp [resetPassword, strFalsy, ht0, hp0, hfind]
  · intro db0 now0 t0 p0 b ht0 hp0 hok
    rcases hfind : db0.users.find? (resetMatch (sha256Hex t0) now0)
      with _ | v
    · rw [show resetPassword db0 now0 (some t0) (some p0) =
          (db0, ⟨400, .msg false "Invalid or expired token"⟩) from by
            simp [resetPassword, strFalsy, ht0, hp0, hfind]] at hok
      simp at hok
    · have hvmem : v ∈ db0.users := List.mem_of_find?_eq_some hfind
      have hvres : resetMatch (sha256Hex t0) now0 v = true :=
        List.find?_some hfind
      have hparts := (Bool.and_eq_true _ _).mp hvres
      have htokv : v.passwordResetToken = some (sha256Hex t0) :=
        of_decide_eq_true hparts.1
      refine ⟨v, hvmem, htokv, ?_⟩
      rcases hex : v.passwordResetExpire with _ | ex
      · rw [hex] at hparts
        simp at hparts
      · rw [hex] at hparts
        exact ⟨ex, rfl, of_decide_eq_true hparts.2⟩
  · intro p3 h1 h2
    have h3 : ¬ 8 ≤ p3.length := by omega
    simp [resetPassword, strFalsy, htok, h1, hmatch, h3]

theorem reset_password_single_use_witness :
    resetPassword
        ⟨[⟨1, "C", "c@x.com", some ⟨"old"⟩, "user", none, none, none, none,
            some (sha256Hex "tk"), some 50⟩], 2⟩
        10 (some "tk") (some "newpass1") =
      (saveUser
        ⟨[⟨1, "C", "c@x.com", some ⟨"old"⟩, "user", none, none, none, none,
            some (sha256Hex "tk"), some 50⟩], 2⟩
        ⟨1, "C", "c@x.com", some (hashPasswordPreSave "newpass1"), "user",
          none, none, none, none, none, none⟩,
       ⟨200, .msg true "Password reset successful"⟩) :=
  (reset_password_single_use
    ⟨[⟨1, "C", "c@x.com", some ⟨"old"⟩, "user", none, none, none, none,
        some (sha256Hex "tk"), some 50⟩], 2⟩
    10 20 "tk" "newpass1" "other1"
    ⟨1, "C", "c@x.com", some ⟨"old"⟩, "user", none, none, none, none,
        some (sha256Hex "tk"), some 50⟩
    (by decide) (by decide) (by decide) (by decide) rfl
    (by intro v hv htk; simp at hv; simp [hv])).1

/-! ### C8 -/

/-- C8 (amended): getMe fails with 404 when the account no longer exists;
otherwise it returns the document exactly as findById yields it: the
password hash is excluded (schema select false), but no further
sanitization happens — the refresh-token and reset-token fields are part
of the returned data whenever they are set on the account. -/
theorem getMe_spec (db : DB) (userId : Nat) :
    (findById db userId = none →
      getMe db userId = ⟨404, .msg false "User not found"⟩) ∧
    ∀ u, findById db userId = some u →
      getMe db userId = ⟨200, .me (serializeUser u false)⟩ ∧
      ∀ kv ∈ serializeUser u false, kv.1 ≠ "password" := by
  constructor
  · intro h
    simp [getMe, h]
  · intro u h
    refine ⟨by simp [getMe, h], ?_⟩
    rintro ⟨k, f⟩ hkv hk
    simp only at hk
    subst hk
    simp only [serializeUser, Bool.false_eq_true, if_false,
      List.nil_append, List.append_assoc, List.mem_append, List.mem_cons,
      List.not_mem_nil, or_false, mem_optField, Prod.mk.injEq] at hkv
    simp at hkv

theorem getMe_spec_witness :
    getMe ⟨[], 0⟩ 5 = ⟨404, .msg false "User not found"⟩ :=
  (getMe_spec ⟨[], 0⟩ 5).1 rfl

/-- A stored account carrying a refresh token and a reset-token hash. -/
def leakUser : User :=
  { id := 1, name := "L", email := "l@x.com", password := some ⟨"pw"⟩,
    role := "user", googleId := none, picture := some defaultPicture,
    refreshToken := some (.garbage "rt"), refreshTokenExpiry := some 999,
    passwordResetToken := some ⟨"x"⟩, passwordResetExpire := some 77 }

/-- C8 counterexample: for this concrete account the getMe response data
contains the refresh-token value, the refresh-token expiry, the
reset-token hash and the reset-token expiry — the claim that the returned
account object excludes them is false on the code. -/
theorem getMe_returns_token_fields :
    getMe ⟨[leakUser], 2⟩ 1 = ⟨200, .me (serializeUser leakUser false)⟩ ∧
    ("refreshToken", Field.tok (.garbage "rt")) ∈
      serializeUser leakUser false ∧
    ("refreshTokenExpiry", Field.num 999) ∈ serializeUser leakUser false ∧
    ("passwordResetToken", Field.sha ⟨"x"⟩) ∈
      serializeUser leakUser false ∧
    ("passwordResetExpire", Field.num 77) ∈ serializeUser leakUser false := by
  refine ⟨rfl, ?_, ?_, ?_, ?_⟩ <;>
    simp [serializeUser, leakUser, optField]

/-! ### C9 -/

/-- C9: federated login against an existing account never overwrites an
existing federated-identity id (the stored linkage — and the stored
avatar — survive even when the provider reports a different subject id);
when the account has no federated id, the provider subject id is set and
the avatar is filled from the provider payload only when it was
previously unset, never replacing an existing avatar value. -/
theorem google_identity_linking (env : Env) (db : DB) (now : Nat)
    (gt : String) (role : Option String) (p : GooglePayload) (u : User)
    (hgt : gt.isEmpty = false)
    (hfind : findOneByEmail db p.email = some u)
    (hids : ∀ v ∈ db.users, v.id = u.id → v = u) :
    (strFalsy u.googleId = false →
      ∀ v ∈ (googleAuth env db now (some gt) role (some p)).1.users,
        v.id = u.id → v.googleId = u.googleId ∧ v.picture = u.picture) ∧
    (strFalsy u.googleId = true →
      ∀ v ∈ (googleAuth env db now (some gt) role (some p)).1.users,
        v.id = u.id →
          v.googleId = some p.sub ∧
          v.picture = (linkGoogleUser u p).picture) ∧
    (strFalsy u.picture = false → (linkGoogleUser u p).picture = u.picture) := by
  have hgt2 : strFalsy (some gt) = false := by simpa [strFalsy] using hgt
  refine ⟨?_, ?_, ?_⟩
  · intro hg
    have hga : googleAuth env db now (some gt) role (some p) =
        sendTokenResponse env db u 200 now := by
      simp [googleAuth, hgt2, hfind, hg]
    rw [hga]
    intro v hv hvid
    by_cases hp : env.production
    · simp only [sendTokenResponse, hp, if_true] at hv
      rcases mem_saveUser hv with h | ⟨hvdb, hvne⟩
      · subst h
        exact ⟨rfl, rfl⟩
      · exact absurd hvid (by simpa using hvne)
    · simp only [sendTokenResponse, hp, if_false] at hv
      have := hids v hv hvid
      subst this
      exact ⟨rfl, rfl⟩
  · intro hg
    have hga : googleAuth env db now (some gt) role (some p) =
        sendTokenResponse env (saveUser db (linkGoogleUser u p))
          (linkGoogleUser u p) 200 now := by
      simp [googleAuth, hgt2, hfind, hg]
    rw [hga]
    intro v hv hvid
    by_cases hp : env.production
    · simp only [sendTokenResponse, hp, if_true] at hv
      rcases mem_saveUser hv with h | ⟨hvdb, hvne⟩
      · subst h
        exact ⟨rfl, rfl⟩
      · rcases mem_saveUser hvdb with h | ⟨_, hvne2⟩
        · subst h
          exact ⟨rfl, rfl⟩
        · exact absurd hvid (by simpa using hvne2)
    · simp only [sendTokenResponse, hp, if_false] at hv
      rcases mem_saveUser hv with h | ⟨_, hvne⟩
      · subst h
        exact ⟨rfl, rfl⟩
      · exact absurd hvid (by simpa using hvne)
  · intro hpic
    simp [linkGoogleUser, hpic]

theorem google_identity_linking_witness :
    (⟨1, "C", "c@x.com", none, "user", some "gOld", some "picOld",
        none, none, none, none⟩ : User).googleId =
      (⟨1, "C", "c@x.com", none, "user", some "gOld", some "picOld",
          none, none, none, none⟩ : User).googleId ∧
    (⟨1, "C", "c@x.com", none, "user", some "gOld", some "picOld",
        none, none, none, none⟩ : User).picture =
      (⟨1, "C", "c@x.com", none, "user", some "gOld", some "picOld",
          none, none, none, none⟩ : User).picture :=
  (google_identity_linking ⟨"s", none, false, 1, 1⟩
    ⟨[⟨1, "C", "c@x.com", none, "user", some "gOld", some "picOld",
        none, none, none, none⟩], 2⟩
    0 "idtok" none ⟨"c@x.com", "C", some "picNew", "gNew"⟩
    ⟨1, "C", "c@x.com", none, "user", some "gOld", some "picOld",
        none, none, none, none⟩
    (by decide) rfl
    (by intro v hv hvid; simp at hv; simp [hv])).1 rfl
    ⟨1, "C", "c@x.com", none, "user", some "gOld", some "picOld",
        none, none, none, none⟩
    (by decide) rfl

end Kamnet
